import Mathlib

/-!
Verification development for the Seiko QT-2100 raw-file decoder
(`seiko_converter/qt2100_parser.py`, class `SeikoQT2100Parser`).

The decoder is embedded shallowly: the byte stream is a `List Nat`
(each element one byte), the parser object's mutable fields become an
explicit `ParserState`, and the `parse` loop becomes `parseStep` (the
body of the `for databyte in it_raw_data` loop, one call per iterated
byte) driven by `parseLoop` (the loop itself, recursing on a fuel
counter that `parse` instantiates with the buffer length; every loop
iteration consumes at least one byte, so that fuel can never run out).
Every Python exception (`KeyError` on a mode table, `AssertionError` on
the mode byte or the timestamp marker, the bare `raise Exception` on
unknown gate bits, `ValueError` from `int(...)`) becomes an explicit
`ParseError` value.  A `read_from_buffer` underrun (`StopIteration`)
makes the Python `parse` return normally with whatever was accumulated;
here that is an `Except.ok` of the current state.
-/

namespace SeikoQT2100

/-- The `RATE_MODES` class attribute: rate modes of the `ESC 0` header
message.  A code outside the table raises `KeyError` in Python, hence the
`Option`. -/
def RATE_MODES : Nat → Option String
  | 0 => some "10 SEC RATE SEC/DAY"
  | 1 => some "2 MIN RATE SEC/DAY"
  | 2 => some "1 SEC RATE SEC/DAY"
  | 3 => some "RATE SEC/DAY"
  | _ => none

/-- The `PRINT_MODES` class attribute: print modes prefixing all values
in `ESC 1` messages. -/
def PRINT_MODES : Nat → Option String
  | 0 => some "C"
  | 1 => some "A 10S"
  | 2 => some "A 2M"
  | 3 => some "B 1S"
  | _ => none

/-- Python's `format(val, "#02")` on a non-negative integer: decimal
digits, zero-padded on the left to a minimum width of 2. -/
def fmt02 (n : Nat) : String :=
  if n < 10 then "0" ++ toString n else toString n

/-- Python's `int(hexlify(data))` for a 3-byte `data = [p1, p2, p3]`:
`hexlify` yields the 6 hex digits of the bytes, and `int` parses that
digit string in base 10.  The parse succeeds exactly when every hex
digit is a decimal digit (every nibble at most 9, i.e. the payload is
binary-coded decimal); otherwise Python raises `ValueError`, modelled as
`none`. -/
def intHexlify (p1 p2 p3 : Nat) : Option Nat :=
  let d1 := p1 / 16
  let d2 := p1 % 16
  let d3 := p2 / 16
  let d4 := p2 % 16
  let d5 := p3 / 16
  let d6 := p3 % 16
  if d1 ≤ 9 ∧ d2 ≤ 9 ∧ d3 ≤ 9 ∧ d4 ≤ 9 ∧ d5 ≤ 9 ∧ d6 ≤ 9 then
    some (d1 * 100000 + d2 * 10000 + d3 * 1000 + d4 * 100 + d5 * 10 + d6)
  else none

/-- The mutable fields of a `SeikoQT2100Parser` object that `parse`
reads or writes: `parsed_values` (each entry `some` measurement or
`none` for a measurement error), `parsed_timestamps`, `print_mode` and
`rate_mode` (both `None` until first set, hence `Option`).  The Python
`float` measurement is modelled as `ℚ`. -/
structure ParserState where
  parsed_values : List (Option ℚ)
  parsed_timestamps : List String
  print_mode : Option Nat
  rate_mode : Option Nat
  deriving DecidableEq, Repr

/-- The exceptions the Python `parse` can raise, by site:
`rateModeKeyError` is the `KeyError` from `RATE_MODES[...]` inside
`get_rate_mode`, called right after reading the header code byte;
`badTimestampMarker` is the `assert esc1_header == 0x1B31`;
`badPrintMode` is the `assert print_mode in (0, 1, 2, 3)`;
`gateModeError` is the bare `raise Exception` on unknown gate bits;
`valueError` is the `ValueError` from `int(hexlify(data))`. -/
inductive ParseError where
  | rateModeKeyError (code : Nat)
  | badTimestampMarker
  | badPrintMode (mode : Nat)
  | gateModeError
  | valueError
  deriving DecidableEq, Repr

instance : DecidableEq (Except ParseError ParserState) := fun a b =>
  match a, b with
  | .ok x, .ok y =>
    if h : x = y then .isTrue (by rw [h]) else .isFalse (by simp [h])
  | .error x, .error y =>
    if h : x = y then .isTrue (by rw [h]) else .isFalse (by simp [h])
  | .ok _, .error _ => .isFalse (by simp)
  | .error _, .ok _ => .isFalse (by simp)

/-- Outcome of one iteration of the `for databyte in it_raw_data` loop:

* `cont esc sk tm newVal newTs setPm setRm rest`: the iteration finished
  and the loop continues at `rest` with flags `escmode = esc`,
  `seiko_mode = sk`, `timestamp_mode = tm`; `newVal` / `newTs` is an
  entry appended to `parsed_values` / `parsed_timestamps` during the
  iteration (at most one each); `setPm` / `setRm` is an assignment
  performed on `print_mode` / `rate_mode` (`none` = untouched).
* `stop setPm`: `read_from_buffer` hit the end of the buffer and
  `parse` returned normally (`print_mode` may already have been
  assigned, since the source assigns it before reading the flag bytes).
* `fail e`: the iteration raised exception `e`.

The loop never reads `parsed_values`, `parsed_timestamps`,
`print_mode` or `rate_mode` before (re)assigning them, so the step
outcome depends only on the flags and the bytes. -/
inductive StepRes where
  | cont (esc sk tm : Bool) (newVal : Option (Option ℚ)) (newTs : Option String)
      (setPm setRm : Option Nat) (rest : List Nat)
  | stop (setPm : Option Nat)
  | fail (e : ParseError)
  deriving DecidableEq

/-- Apply an optional field assignment: `applySet (some x) old = some x`
(the field was assigned `x`), `applySet none old = old`. -/
def applySet (new old : Option Nat) : Option Nat :=
  match new with
  | some x => some x
  | none => old

/-- The body of `SeikoQT2100Parser.parse`'s loop, for current byte `b`
and remaining buffer `rest`.

Faithfulness notes, keyed to the source:
* the `ESC 0` branch has no `continue`, so after a successful header
  read Python falls through to the remaining tests with the same byte
  `0x30`: the `ESC 1` / `ESC T` tests fail, and the value branch fires
  exactly when `seiko_mode or timestamp_mode` is still set, in which
  case `assert print_mode in (0,1,2,3)` fails on `0x30`; otherwise the
  flags are reset at the bottom of the loop.  Both outcomes are written
  out here directly.
* the header branch assigns `self.rate_mode = data[0]` and then calls
  `get_rate_mode()` (inside a `print`), which raises `KeyError` when the
  code is not in `RATE_MODES`.
* `self.print_mode` is assigned before `read_from_buffer(2)`, so a
  truncated value frame still assigns `print_mode` (`stop (some b)`).
* the error-flag branch (`byte3 & 128 == 128`) appends `None` and
  `continue`s without resetting the flags.
* `gate_mode = byte3 & ~1` is `f &&& 254` on byte values, and the gate
  test is `gate_mode == 0` / `gate_mode & 32 == 32`, anything else
  raising; the `gate_mode & 16` test only prints.
* the measurement is `int(hexlify(data)) / 1000 * sign` with
  `sign = -1 if byte3 & 1 else 1`.
* the timestamp branch reads 5 bytes `(hours, minutes, seconds,
  esc1_header)` with `esc1_header` big-endian 16-bit, asserts
  `esc1_header == 0x1B31` (= 6961), discards `hours`, and appends
  `minutes` and `seconds` each formatted with `format(_, "#02")`,
  joined by `":"`. -/
def parseStep (esc sk tm : Bool) (b : Nat) (rest : List Nat) : StepRes :=
  if b = 27 then .cont true sk tm none none none none rest
  else if esc ∧ b = 48 then
    match rest with
    | [] => .stop none
    | r :: rest1 =>
      (match RATE_MODES r with
      | none => .fail (.rateModeKeyError r)
      | some _ =>
        if sk ∨ tm then .fail (.badPrintMode 48)
        else .cont false false false none none none (some r) rest1)
  else if esc ∧ b = 49 then .cont esc true tm none none none none rest
  else if esc ∧ b = 84 then
    match rest with
    | h :: m :: s :: e1 :: e2 :: rest5 =>
      if e1 * 256 + e2 = 6961 then
        .cont esc sk true none (some (fmt02 m ++ ":" ++ fmt02 s)) none none rest5
      else .fail .badTimestampMarker
    | _ => .stop none
  else if esc ∧ (sk ∨ tm) then
    if b = 0 ∨ b = 1 ∨ b = 2 ∨ b = 3 then
      match rest with
      | f :: u :: rest2 =>
        if f &&& 128 = 128 then .cont esc sk tm (some none) none (some b) none rest2
        else if f &&& 254 = 0 ∨ (f &&& 254) &&& 32 = 32 then
          (match rest2 with
          | p1 :: p2 :: p3 :: rest3 =>
            (match intHexlify p1 p2 p3 with
            | some n =>
              .cont false false false
                (some (some ((if f &&& 1 = 1 then (-1 : ℚ) else 1) * ((n : ℚ) / 1000))))
                none (some b) none rest3
            | none => .fail .valueError)
          | _ => .stop (some b))
        else .fail .gateModeError
      | _ => .stop (some b)
    else .fail (.badPrintMode b)
  else .cont false false false none none none none rest

/-- The `for databyte in it_raw_data` loop of `parse`: one `parseStep`
per iterated byte.  `fuel` only bounds the number of iterations; since
every iteration consumes at least one byte, `parse` instantiates it
with the buffer length and the second equation is never reached from
`parse` (see `parseLoop_fuel`). -/
def parseLoop : Nat → Bool → Bool → Bool → List (Option ℚ) → List String →
    Option Nat → Option Nat → List Nat → Except ParseError ParserState
  | _, _, _, _, vs, ts, pm, rm, [] => .ok ⟨vs, ts, pm, rm⟩
  | 0, _, _, _, vs, ts, pm, rm, _ :: _ => .ok ⟨vs, ts, pm, rm⟩
  | fuel + 1, esc, sk, tm, vs, ts, pm, rm, b :: rest =>
    match parseStep esc sk tm b rest with
    | .fail e => .error e
    | .stop setPm => .ok ⟨vs, ts, applySet setPm pm, rm⟩
    | .cont esc2 sk2 tm2 newVal newTs setPm setRm rest2 =>
      parseLoop fuel esc2 sk2 tm2 (vs ++ newVal.toList) (ts ++ newTs.toList)
        (applySet setPm pm) (applySet setRm rm) rest2

/-- One call of `parse` on a parser whose current fields are `st`
(`parse` does not clear the accumulated fields; it only creates fresh
loop flags `escmode = seiko_mode = timestamp_mode = False` and a fresh
iterator over the buffer). -/
def parseRun (st : ParserState) (bytes : List Nat) : Except ParseError ParserState :=
  parseLoop bytes.length false false false st.parsed_values st.parsed_timestamps
    st.print_mode st.rate_mode bytes

/-- The state of a freshly constructed `SeikoQT2100Parser` (`__init__`):
empty value and timestamp lists, `print_mode = rate_mode = None`. -/
def initState : ParserState := ⟨[], [], none, none⟩

/-- A full decode pass on a fresh parser object. -/
def parse (bytes : List Nat) : Except ParseError ParserState :=
  parseRun initState bytes

/-- `get_rate_mode`, as a total function: `RATE_MODES[self.rate_mode]`,
`none` when the lookup would raise `KeyError`. -/
def get_rate_modeTotal (st : ParserState) : Option String :=
  st.rate_mode.bind RATE_MODES

/-- Modelled from the spec: the spec's `AcquisitionMode` code, "extracted
from bits of each value frame's flag byte", `0` = seconds-gate, `32` =
Hz-gate (bit5 of the flag byte).  The source stores no such field — this
definition exists only to compare the spec's claimed `DecodeResult`
field with the source's `ParserState`. -/
def specAcquisitionMode (f : Nat) : Nat := f &&& 32

/-- A timestamped block of the wire format: one `ESC T` timestamp frame
(whose trailing marker is the pre-consumed `ESC 1` introducer) followed
by one complete value frame `mode flags unknown p1 p2 p3`. -/
structure Block where
  hh : Nat
  mm : Nat
  ss : Nat
  mode : Nat
  flags : Nat
  unused : Nat
  p1 : Nat
  p2 : Nat
  p3 : Nat

/-- A block whose value frame decodes without an exception: recognized
mode byte, error flag clear, valid gate bits, binary-coded-decimal
payload. -/
def validBlock (blk : Block) : Prop :=
  (blk.mode = 0 ∨ blk.mode = 1 ∨ blk.mode = 2 ∨ blk.mode = 3) ∧
  blk.flags &&& 128 ≠ 128 ∧
  (blk.flags &&& 254 = 0 ∨ (blk.flags &&& 254) &&& 32 = 32) ∧
  (intHexlify blk.p1 blk.p2 blk.p3).isSome

instance (blk : Block) : Decidable (validBlock blk) := by
  unfold validBlock; infer_instance

/-- The bytes of one timestamped block on the wire. -/
def encodeBlock (blk : Block) : List Nat :=
  [27, 84, blk.hh, blk.mm, blk.ss, 27, 49,
   blk.mode, blk.flags, blk.unused, blk.p1, blk.p2, blk.p3]

/-- The bytes of a concatenation of timestamped blocks. -/
def encodeBlocks : List Block → List Nat
  | [] => []
  | blk :: bs => encodeBlock blk ++ encodeBlocks bs

/-! ### Step lemmas: one loop iteration per wire construct -/

lemma applySet_none_right (a : Option Nat) : applySet a none = a := by
  cases a <;> rfl

lemma applySet_self (a : Option Nat) : applySet a a = a := by
  cases a <;> rfl

lemma applySet_applySet (a b c : Option Nat) :
    applySet a (applySet b c) = applySet (applySet a b) c := by
  cases a <;> rfl

lemma pl_nil (fuel : Nat) (esc sk tm : Bool) (vs : List (Option ℚ))
    (ts : List String) (pm rm : Option Nat) :
    parseLoop fuel esc sk tm vs ts pm rm [] = .ok ⟨vs, ts, pm, rm⟩ := by
  cases fuel <;> rfl

lemma pl_esc (fuel : Nat) (esc sk tm : Bool) (vs : List (Option ℚ))
    (ts : List String) (pm rm : Option Nat) (rest : List Nat) :
    parseLoop (fuel + 1) esc sk tm vs ts pm rm (27 :: rest) =
      parseLoop fuel true sk tm vs ts pm rm rest := by
  simp [parseLoop, parseStep, applySet]

lemma pl_seiko (fuel : Nat) (sk tm : Bool) (vs : List (Option ℚ))
    (ts : List String) (pm rm : Option Nat) (rest : List Nat) :
    parseLoop (fuel + 1) true sk tm vs ts pm rm (49 :: rest) =
      parseLoop fuel true true tm vs ts pm rm rest := by
  simp [parseLoop, parseStep, applySet]

lemma pl_header_ok (fuel : Nat) (r : Nat) (l : String) (hr : RATE_MODES r = some l)
    (vs : List (Option ℚ)) (ts : List String) (pm rm : Option Nat) (rest : List Nat) :
    parseLoop (fuel + 1) true false false vs ts pm rm (48 :: r :: rest) =
      parseLoop fuel false false false vs ts pm (some r) rest := by
  simp [parseLoop, parseStep, applySet, hr]

lemma pl_header_bad (fuel : Nat) (r : Nat) (hr : RATE_MODES r = none) (sk tm : Bool)
    (vs : List (Option ℚ)) (ts : List String) (pm rm : Option Nat) (rest : List Nat) :
    parseLoop (fuel + 1) true sk tm vs ts pm rm (48 :: r :: rest) =
      .error (.rateModeKeyError r) := by
  simp [parseLoop, parseStep, hr]

lemma pl_header_trunc (fuel : Nat) (sk tm : Bool)
    (vs : List (Option ℚ)) (ts : List String) (pm rm : Option Nat) :
    parseLoop (fuel + 1) true sk tm vs ts pm rm [48] = .ok ⟨vs, ts, pm, rm⟩ := by
  simp [parseLoop, parseStep, applySet]

lemma pl_ts (fuel : Nat) (sk tm : Bool) (h m s : Nat)
    (vs : List (Option ℚ)) (ts : List String) (pm rm : Option Nat) (rest : List Nat) :
    parseLoop (fuel + 1) true sk tm vs ts pm rm (84 :: h :: m :: s :: 27 :: 49 :: rest) =
      parseLoop fuel true sk true vs (ts ++ [fmt02 m ++ ":" ++ fmt02 s]) pm rm rest := by
  simp [parseLoop, parseStep, applySet]

lemma pl_ts_trunc (fuel : Nat) (sk tm : Bool) (rest : List Nat) (hlen : rest.length ≤ 4)
    (vs : List (Option ℚ)) (ts : List String) (pm rm : Option Nat) :
    parseLoop (fuel + 1) true sk tm vs ts pm rm (84 :: rest) = .ok ⟨vs, ts, pm, rm⟩ := by
  rcases rest with _ | ⟨a, _ | ⟨c, _ | ⟨d, _ | ⟨e, _ | ⟨x, r⟩⟩⟩⟩⟩ <;>
    simp_all [parseLoop, parseStep, applySet]

lemma pl_value_none (fuel : Nat) (sk tm : Bool) (b f u : Nat)
    (hb : b = 0 ∨ b = 1 ∨ b = 2 ∨ b = 3) (hsk : sk = true ∨ tm = true)
    (hf : f &&& 128 = 128)
    (vs : List (Option ℚ)) (ts : List String) (pm rm : Option Nat) (rest : List Nat) :
    parseLoop (fuel + 1) true sk tm vs ts pm rm (b :: f :: u :: rest) =
      parseLoop fuel true sk tm (vs ++ [none]) ts (some b) rm rest := by
  rcases hb with rfl | rfl | rfl | rfl <;> rcases hsk with rfl | rfl <;>
    simp [parseLoop, parseStep, applySet, hf]

lemma pl_value_some (fuel : Nat) (sk tm : Bool) (b f u p1 p2 p3 n : Nat)
    (hb : b = 0 ∨ b = 1 ∨ b = 2 ∨ b = 3) (hsk : sk = true ∨ tm = true)
    (hf : ¬ f &&& 128 = 128)
    (hg : f &&& 254 = 0 ∨ (f &&& 254) &&& 32 = 32)
    (hn : intHexlify p1 p2 p3 = some n)
    (vs : List (Option ℚ)) (ts : List String) (pm rm : Option Nat) (rest : List Nat) :
    parseLoop (fuel + 1) true sk tm vs ts pm rm (b :: f :: u :: p1 :: p2 :: p3 :: rest) =
      parseLoop fuel false false false
        (vs ++ [some ((if f &&& 1 = 1 then (-1 : ℚ) else 1) * ((n : ℚ) / 1000))])
        ts (some b) rm rest := by
  rcases hb with rfl | rfl | rfl | rfl <;> rcases hsk with rfl | rfl <;>
    simp [parseLoop, parseStep, applySet, hf, hg, hn]

lemma pl_value_hexfail (fuel : Nat) (sk tm : Bool) (b f u p1 p2 p3 : Nat)
    (hb : b = 0 ∨ b = 1 ∨ b = 2 ∨ b = 3) (hsk : sk = true ∨ tm = true)
    (hf : ¬ f &&& 128 = 128)
    (hg : f &&& 254 = 0 ∨ (f &&& 254) &&& 32 = 32)
    (hn : intHexlify p1 p2 p3 = none)
    (vs : List (Option ℚ)) (ts : List String) (pm rm : Option Nat) (rest : List Nat) :
    parseLoop (fuel + 1) true sk tm vs ts pm rm (b :: f :: u :: p1 :: p2 :: p3 :: rest) =
      .error .valueError := by
  rcases hb with rfl | rfl | rfl | rfl <;> rcases hsk with rfl | rfl <;>
    simp [parseLoop, parseStep, hf, hg, hn]

lemma pl_value_badgate (fuel : Nat) (sk tm : Bool) (b f u : Nat)
    (hb : b = 0 ∨ b = 1 ∨ b = 2 ∨ b = 3) (hsk : sk = true ∨ tm = true)
    (hf : ¬ f &&& 128 = 128)
    (hg : ¬ (f &&& 254 = 0 ∨ (f &&& 254) &&& 32 = 32))
    (vs : List (Option ℚ)) (ts : List String) (pm rm : Option Nat) (rest : List Nat) :
    parseLoop (fuel + 1) true sk tm vs ts pm rm (b :: f :: u :: rest) =
      .error .gateModeError := by
  rcases hb with rfl | rfl | rfl | rfl <;> rcases hsk with rfl | rfl <;>
    simp [parseLoop, parseStep, hf, hg]

lemma pl_value_trunc1 (fuel : Nat) (sk tm : Bool) (b : Nat)
    (hb : b = 0 ∨ b = 1 ∨ b = 2 ∨ b = 3) (hsk : sk = true ∨ tm = true)
    (rest : List Nat) (hlen : rest.length ≤ 1)
    (vs : List (Option ℚ)) (ts : List String) (pm rm : Option Nat) :
    parseLoop (fuel + 1) true sk tm vs ts pm rm (b :: rest) =
      .ok ⟨vs, ts, some b, rm⟩ := by
  rcases rest with _ | ⟨a, _ | ⟨c, r⟩⟩ <;>
    rcases hb with rfl | rfl | rfl | rfl <;> rcases hsk with rfl | rfl <;>
      simp_all [parseLoop, parseStep, applySet]

lemma pl_value_trunc2 (fuel : Nat) (sk tm : Bool) (b f u : Nat)
    (hb : b = 0 ∨ b = 1 ∨ b = 2 ∨ b = 3) (hsk : sk = true ∨ tm = true)
    (hf : ¬ f &&& 128 = 128)
    (hg : f &&& 254 = 0 ∨ (f &&& 254) &&& 32 = 32)
    (rest2 : List Nat) (hlen : rest2.length ≤ 2)
    (vs : List (Option ℚ)) (ts : List String) (pm rm : Option Nat) :
    parseLoop (fuel + 1) true sk tm vs ts pm rm (b :: f :: u :: rest2) =
      .ok ⟨vs, ts, some b, rm⟩ := by
  rcases rest2 with _ | ⟨a, _ | ⟨c, _ | ⟨d, r⟩⟩⟩ <;>
    rcases hb with rfl | rfl | rfl | rfl <;> rcases hsk with rfl | rfl <;>
      simp_all [parseLoop, parseStep, applySet, hf, hg]

/-! ### Arithmetic facts about the BCD payload decoder -/

lemma intHexlify_le (p1 p2 p3 n : Nat) (h : intHexlify p1 p2 p3 = some n) :
    n ≤ 999999 := by
  simp only [intHexlify] at h
  split_ifs at h with hg
  injection h with h
  omega

lemma intHexlify_none_of_nib (p1 p2 p3 : Nat)
    (h : 9 < p1 / 16 ∨ 9 < p1 % 16 ∨ 9 < p2 / 16 ∨ 9 < p2 % 16 ∨
         9 < p3 / 16 ∨ 9 < p3 % 16) :
    intHexlify p1 p2 p3 = none := by
  simp only [intHexlify]
  rw [if_neg]
  omega

/-! ### The loop only appends to the accumulated fields

`parseStep` never inspects `parsed_values`, `parsed_timestamps`,
`print_mode` or `rate_mode`, so a run from an arbitrary starting state
is the run from the empty state with the starting fields prepended
(and `print_mode` / `rate_mode` kept unless the run assigns them). -/

lemma parseLoop_dress : ∀ (fuel : Nat) (esc sk tm : Bool) (vs : List (Option ℚ))
    (ts : List String) (pm rm : Option Nat) (bytes : List Nat),
    parseLoop fuel esc sk tm vs ts pm rm bytes =
      (parseLoop fuel esc sk tm [] [] none none bytes).map
        (fun r => ⟨vs ++ r.parsed_values, ts ++ r.parsed_timestamps,
                   applySet r.print_mode pm, applySet r.rate_mode rm⟩) := by
  intro fuel
  induction fuel with
  | zero =>
    intro esc sk tm vs ts pm rm bytes
    cases bytes <;> simp [parseLoop, applySet, Except.map]
  | succ n ih =>
    intro esc sk tm vs ts pm rm bytes
    cases bytes with
    | nil => simp [parseLoop, applySet, Except.map]
    | cons b rest =>
      cases hs : parseStep esc sk tm b rest with
      | fail e => simp [parseLoop, hs, Except.map]
      | stop sp =>
        simp only [parseLoop, hs, Except.map]
        rw [applySet_none_right]
        simp [applySet]
      | cont e2 s2 t2 nv nt sp sr rest2 =>
        simp only [parseLoop, hs, List.nil_append, applySet_none_right]
        rw [ih e2 s2 t2 (vs ++ nv.toList) (ts ++ nt.toList)
              (applySet sp pm) (applySet sr rm) rest2,
            ih e2 s2 t2 nv.toList nt.toList sp sr rest2]
        cases hX : parseLoop n e2 s2 t2 [] [] none none rest2 with
        | error e => simp [Except.map]
        | ok r => simp [Except.map, applySet_applySet, List.append_assoc]

/-! ### Decoding a concatenation of timestamped blocks -/

lemma pl_block (fuel : Nat) (blk : Block) (hv : validBlock blk)
    (vs : List (Option ℚ)) (ts : List String) (pm rm : Option Nat) (rest : List Nat) :
    ∃ v t, parseLoop (fuel + 3) false false false vs ts pm rm (encodeBlock blk ++ rest) =
      parseLoop fuel false false false (vs ++ [v]) (ts ++ [t]) (some blk.mode) rm rest := by
  obtain ⟨hb, hf, hg, hbcd⟩ := hv
  obtain ⟨n, hn⟩ := Option.isSome_iff_exists.mp hbcd
  refine ⟨some ((if blk.flags &&& 1 = 1 then (-1 : ℚ) else 1) * ((n : ℚ) / 1000)),
          fmt02 blk.mm ++ ":" ++ fmt02 blk.ss, ?_⟩
  simp only [encodeBlock, List.cons_append, List.nil_append]
  rw [pl_esc (fuel + 2), pl_ts (fuel + 1),
      pl_value_some fuel false true blk.mode blk.flags blk.unused blk.p1 blk.p2 blk.p3 n
        hb (Or.inr rfl) hf hg hn]

lemma pl_blocks : ∀ (bs : List Block) (extra : Nat) (vs : List (Option ℚ))
    (ts : List String) (pm rm : Option Nat),
    (∀ blk ∈ bs, validBlock blk) →
    ∃ nv nt pm2,
      parseLoop (3 * bs.length + extra) false false false vs ts pm rm (encodeBlocks bs) =
        .ok ⟨vs ++ nv, ts ++ nt, pm2, rm⟩ ∧
      nv.length = bs.length ∧ nt.length = bs.length := by
  intro bs
  induction bs with
  | nil =>
    intro extra vs ts pm rm hv
    exact ⟨[], [], pm, by simp [encodeBlocks, pl_nil], by simp, by simp⟩
  | cons blk bs ih =>
    intro extra vs ts pm rm hv
    have hvb : validBlock blk := hv blk (by simp)
    have hrest : ∀ b ∈ bs, validBlock b := fun b hb => hv b (by simp [hb])
    have harith : 3 * (blk :: bs).length + extra = (3 * bs.length + extra) + 3 := by
      simp [List.length_cons]
      ring
    rw [show encodeBlocks (blk :: bs) = encodeBlock blk ++ encodeBlocks bs from rfl, harith]
    obtain ⟨v, t, hstep⟩ :=
      pl_block (3 * bs.length + extra) blk hvb vs ts pm rm (encodeBlocks bs)
    rw [hstep]
    obtain ⟨nv, nt, pm2, heq, hl1, hl2⟩ :=
      ih extra (vs ++ [v]) (ts ++ [t]) (some blk.mode) rm hrest
    refine ⟨v :: nv, t :: nt, pm2, ?_, by simp [hl1], by simp [hl2]⟩
    rw [heq]
    simp

lemma encodeBlocks_length : ∀ bs : List Block,
    (encodeBlocks bs).length = 13 * bs.length := by
  intro bs
  induction bs with
  | nil => rfl
  | cons blk bs ih =>
    simp only [encodeBlocks, encodeBlock, List.length_append, List.length_cons, ih,
      List.length_nil]
    omega

/-! ### Claim theorems -/

/-- C1 counterexample: for the error-free value frame `mode=1 flags=0x00
unknown=0x00 payload=0x00 0x27 0x10`, the claim predicts magnitude
`0x002710 / 1000 = 10000 / 1000 = 10.0`, but the decoder produces
`int("002710") / 1000 = 2710 / 1000 = 2.71`: the hex digit string is
parsed as a decimal number, not as a hexadecimal value. -/
theorem C1_counterexample :
    parse [27, 49, 1, 0, 0, 0, 39, 16] =
      .ok ⟨[some ((271 : ℚ) / 100)], [], some 1, none⟩ ∧
    ¬ ((271 : ℚ) / 100 = 10000 / 1000) := by
  constructor
  · simp [parse, parseRun, parseLoop, parseStep, initState, intHexlify, applySet]
    norm_num
  · norm_num

/-- C1 (amended): for every value frame with the error flag clear, the
decoded magnitude is the 6 hex digits of the 3 payload bytes read as a
*decimal* number (BCD), divided by 1000 — defined exactly when every
nibble is at most 9 — the sign factor is `-1` iff flag bit0 is set, and
the magnitude always lies in `[0, 999.999]`. -/
theorem C1_value_decode (fuel : Nat) (sk tm : Bool) (b f u p1 p2 p3 n : Nat)
    (hb : b = 0 ∨ b = 1 ∨ b = 2 ∨ b = 3) (hsk : sk = true ∨ tm = true)
    (hf : ¬ f &&& 128 = 128)
    (hg : f &&& 254 = 0 ∨ (f &&& 254) &&& 32 = 32)
    (hn : intHexlify p1 p2 p3 = some n)
    (vs : List (Option ℚ)) (ts : List String) (pm rm : Option Nat) (rest : List Nat) :
    parseLoop (fuel + 1) true sk tm vs ts pm rm (b :: f :: u :: p1 :: p2 :: p3 :: rest) =
      parseLoop fuel false false false
        (vs ++ [some ((if f &&& 1 = 1 then (-1 : ℚ) else 1) * ((n : ℚ) / 1000))])
        ts (some b) rm rest ∧
    (0 : ℚ) ≤ (n : ℚ) / 1000 ∧ (n : ℚ) / 1000 ≤ 999999 / 1000 ∧
    ((if f &&& 1 = 1 then (-1 : ℚ) else 1) = -1 ↔ f &&& 1 = 1) := by
  refine ⟨pl_value_some fuel sk tm b f u p1 p2 p3 n hb hsk hf hg hn vs ts pm rm rest,
    by positivity, ?_, ?_⟩
  · have h1 : (n : ℚ) ≤ 999999 := by
      exact_mod_cast intHexlify_le p1 p2 p3 n hn
    linarith
  · split_ifs with hsign
    · exact iff_of_true rfl hsign
    · exact iff_of_false (by norm_num) hsign

/-- C1 witness: the amended decode equation instantiated at the frame
`mode=1 flags=0 unknown=0 payload=0x00 0x27 0x10` (BCD value 2710). -/
theorem C1_witness :
    parseLoop 1 true true false [] [] none none [1, 0, 0, 0, 39, 16] =
      parseLoop 0 false false false
        ([] ++ [some ((if 0 &&& 1 = 1 then (-1 : ℚ) else 1) * ((2710 : ℚ) / 1000))])
        [] (some 1) none [] ∧
    (0 : ℚ) ≤ (2710 : ℚ) / 1000 ∧ (2710 : ℚ) / 1000 ≤ 999999 / 1000 ∧
    ((if 0 &&& 1 = 1 then (-1 : ℚ) else 1) = -1 ↔ 0 &&& 1 = 1) :=
  C1_value_decode 0 true false 1 0 0 0 39 16 2710 (by decide) (by decide)
    (by decide) (by decide) (by decide) [] [] none none []

/-- C2 counterexample: the buffer `ESC '1' mode=0 flags=0x80` contains,
per the claim, one complete 2-byte error value frame (mode + flags with
bit7 set), so the claim predicts exactly one `None` appended; the
decoder instead demands a third byte (it reads flags and the reserved
byte together, before testing bit7), hits the end of the buffer, and
appends nothing. -/
theorem C2_counterexample :
    parse [27, 49, 0, 128] = .ok ⟨[], [], some 0, none⟩ ∧
    ([] : List (Option ℚ)) ≠ [none] := by
  decide

/-- C2 (amended): for every value frame whose flags byte has bit7 set,
the decoder appends exactly one `None` and consumes exactly 3 bytes
(mode byte, flags byte and the reserved byte), consuming no payload
bytes beyond those; the scan flags are left armed (the source
`continue`s without resetting them). -/
theorem C2_error_frame (fuel : Nat) (sk tm : Bool) (b f u : Nat)
    (hb : b = 0 ∨ b = 1 ∨ b = 2 ∨ b = 3) (hsk : sk = true ∨ tm = true)
    (hf : f &&& 128 = 128)
    (vs : List (Option ℚ)) (ts : List String) (pm rm : Option Nat) (rest : List Nat) :
    parseLoop (fuel + 1) true sk tm vs ts pm rm (b :: f :: u :: rest) =
      parseLoop fuel true sk tm (vs ++ [none]) ts (some b) rm rest ∧
    (vs ++ [(none : Option ℚ)]).length = vs.length + 1 :=
  ⟨pl_value_none fuel sk tm b f u hb hsk hf vs ts pm rm rest, by simp⟩

/-- C2 witness: the amended error-frame equation at `mode=2 flags=0x81
reserved=0x55`. -/
theorem C2_witness :
    parseLoop 4 true true false [] [] none none [2, 129, 85, 99] =
      parseLoop 3 true true false ([] ++ [none]) [] (some 2) none [99] ∧
    (([] : List (Option ℚ)) ++ [(none : Option ℚ)]).length = ([] : List (Option ℚ)).length + 1 :=
  C2_error_frame 3 true false 2 129 85 (by decide) (by decide) (by decide)
    [] [] none none [99]

/-- C3: for every header frame `ESC '0' r` with `r ∈ {0,1,2,3}` the
decode succeeds and stores `r`, whose `RATE_MODES` label is exactly the
fixed table entry; for every other code the decode pass fails at decode
time with the `KeyError` raised while looking up the rate label
(`rateModeKeyError r`), so an unrecognized code never reaches any
downstream consumer. -/
theorem C3_rate_mode_table :
    (parse [27, 48, 0] = .ok ⟨[], [], none, some 0⟩ ∧
      RATE_MODES 0 = some "10 SEC RATE SEC/DAY") ∧
    (parse [27, 48, 1] = .ok ⟨[], [], none, some 1⟩ ∧
      RATE_MODES 1 = some "2 MIN RATE SEC/DAY") ∧
    (parse [27, 48, 2] = .ok ⟨[], [], none, some 2⟩ ∧
      RATE_MODES 2 = some "1 SEC RATE SEC/DAY") ∧
    (parse [27, 48, 3] = .ok ⟨[], [], none, some 3⟩ ∧
      RATE_MODES 3 = some "RATE SEC/DAY") ∧
    ∀ r, RATE_MODES r = none → parse [27, 48, r] = .error (.rateModeKeyError r) := by
  refine ⟨by decide, by decide, by decide, by decide, ?_⟩
  intro r hr
  show parseLoop 3 false false false [] [] none none [27, 48, r] = _
  rw [pl_esc 2]
  exact pl_header_bad 1 r hr false false [] [] none none []

/-- C3 witness: the rejection branch instantiated at code 9. -/
theorem C3_witness :
    parse [27, 48, 9] = .error (.rateModeKeyError 9) :=
  C3_rate_mode_table.2.2.2.2 9 (by decide)

/-- C4 counterexample: a value frame whose flags byte is `0x10` (bit4
set, bit5 clear, error flag clear) does not decode as a seconds-gate
measurement as the claim states: the decoder raises its gate-mode
exception. -/
theorem C4_counterexample :
    parse [27, 49, 1, 16, 0, 0, 0, 0] = .error .gateModeError := by
  decide

/-- C4 (amended): bit4 of the flags byte is advisory only when bit5 is
also set — frames with flags `0x30+s` and `0x20+s` (`s` the sign bit)
decode identically — but a flags byte whose gate bits are exactly
`0x10` (bit4 set, bit5 clear) is a fatal decode error, the same
`raise Exception` used for every gate-bit pattern other than 0 or
bit5-set. -/
theorem C4_gate_bits (fuel : Nat) (sk tm : Bool) (b : Nat)
    (hb : b = 0 ∨ b = 1 ∨ b = 2 ∨ b = 3) (hsk : sk = true ∨ tm = true)
    (vs : List (Option ℚ)) (ts : List String) (pm rm : Option Nat) :
    (∀ s u p1 p2 p3 rest, s = 0 ∨ s = 1 →
      parseLoop (fuel + 1) true sk tm vs ts pm rm
          (b :: (48 + s) :: u :: p1 :: p2 :: p3 :: rest) =
        parseLoop (fuel + 1) true sk tm vs ts pm rm
          (b :: (32 + s) :: u :: p1 :: p2 :: p3 :: rest)) ∧
    (∀ u rest, parseLoop (fuel + 1) true sk tm vs ts pm rm (b :: 16 :: u :: rest) =
      .error .gateModeError) ∧
    (∀ u rest, parseLoop (fuel + 1) true sk tm vs ts pm rm (b :: 17 :: u :: rest) =
      .error .gateModeError) := by
  refine ⟨?_, ?_, ?_⟩
  · intro s u p1 p2 p3 rest hs
    rcases hs with rfl | rfl
    · cases hn : intHexlify p1 p2 p3 with
      | some n =>
        rw [pl_value_some fuel sk tm b 48 u p1 p2 p3 n hb hsk (by decide) (by decide) hn,
            pl_value_some fuel sk tm b 32 u p1 p2 p3 n hb hsk (by decide) (by decide) hn]
        simp [(by decide : (48 : Nat) &&& 1 = 0), (by decide : (32 : Nat) &&& 1 = 0)]
      | none =>
        rw [pl_value_hexfail fuel sk tm b 48 u p1 p2 p3 hb hsk (by decide) (by decide) hn,
            pl_value_hexfail fuel sk tm b 32 u p1 p2 p3 hb hsk (by decide) (by decide) hn]
    · cases hn : intHexlify p1 p2 p3 with
      | some n =>
        rw [pl_value_some fuel sk tm b 49 u p1 p2 p3 n hb hsk (by decide) (by decide) hn,
            pl_value_some fuel sk tm b 33 u p1 p2 p3 n hb hsk (by decide) (by decide) hn]
        simp [(by decide : (49 : Nat) &&& 1 = 1), (by decide : (33 : Nat) &&& 1 = 1)]
      | none =>
        rw [pl_value_hexfail fuel sk tm b 49 u p1 p2 p3 hb hsk (by decide) (by decide) hn,
            pl_value_hexfail fuel sk tm b 33 u p1 p2 p3 hb hsk (by decide) (by decide) hn]
  · intro u rest
    exact pl_value_badgate fuel sk tm b 16 u hb hsk (by decide) (by decide) vs ts pm rm rest
  · intro u rest
    exact pl_value_badgate fuel sk tm b 17 u hb hsk (by decide) (by decide) vs ts pm rm rest

/-- C4 witness: the amended gate-bit behaviour at `mode=1`, sign 0,
payload `0x000001`, and at flags `0x10`. -/
theorem C4_witness :
    (parseLoop 1 true true false [] [] none none [1, 48, 7, 0, 0, 1] =
      parseLoop 1 true true false [] [] none none [1, 32, 7, 0, 0, 1]) ∧
    parseLoop 1 true true false [] [] none none [1, 16, 7, 9, 9] =
      .error .gateModeError :=
  ⟨(C4_gate_bits 0 true false 1 (by decide) (by decide) [] [] none none).1
      0 7 0 0 1 [] (by decide),
   (C4_gate_bits 0 true false 1 (by decide) (by decide) [] [] none none).2.1
      7 [9, 9]⟩

/-- C5: every multi-byte read that runs off the end of the buffer makes
the decode pass return immediately and normally (`Except.ok`, never the
`Except.error` used for malformed frames), with the measurements and
timestamps accumulated so far unchanged.  The four conjuncts are the
four read sites: the 1-byte header-code read, the 5-byte timestamp
read, the 2-byte flags+reserved read, and the 3-byte payload read (the
last two leave `print_mode` assigned, as the source assigns it before
reading). -/
theorem C5_underrun (fuel : Nat) (sk tm : Bool)
    (vs : List (Option ℚ)) (ts : List String) (pm rm : Option Nat) :
    (parseLoop (fuel + 1) true sk tm vs ts pm rm [48] = .ok ⟨vs, ts, pm, rm⟩) ∧
    (∀ rest, rest.length ≤ 4 →
      parseLoop (fuel + 1) true sk tm vs ts pm rm (84 :: rest) = .ok ⟨vs, ts, pm, rm⟩) ∧
    (∀ b rest, (b = 0 ∨ b = 1 ∨ b = 2 ∨ b = 3) → (sk = true ∨ tm = true) →
      rest.length ≤ 1 →
      parseLoop (fuel + 1) true sk tm vs ts pm rm (b :: rest) = .ok ⟨vs, ts, some b, rm⟩) ∧
    (∀ b f u rest2, (b = 0 ∨ b = 1 ∨ b = 2 ∨ b = 3) → (sk = true ∨ tm = true) →
      ¬ f &&& 128 = 128 → (f &&& 254 = 0 ∨ (f &&& 254) &&& 32 = 32) →
      rest2.length ≤ 2 →
      parseLoop (fuel + 1) true sk tm vs ts pm rm (b :: f :: u :: rest2) =
        .ok ⟨vs, ts, some b, rm⟩) :=
  ⟨pl_header_trunc fuel sk tm vs ts pm rm,
   fun rest hlen => pl_ts_trunc fuel sk tm rest hlen vs ts pm rm,
   fun b rest hb hsk hlen => pl_value_trunc1 fuel sk tm b hb hsk rest hlen vs ts pm rm,
   fun b f u rest2 hb hsk hf hg hlen =>
     pl_value_trunc2 fuel sk tm b f u hb hsk hf hg rest2 hlen vs ts pm rm⟩

/-- C5 witness: the four truncation sites at concrete inputs, with the
already-accumulated sequences visibly unchanged. -/
theorem C5_witness :
    (parseLoop 1 true true false [none] ["07:42"] (some 1) (some 0) [48] =
      .ok ⟨[none], ["07:42"], some 1, some 0⟩) ∧
    (parseLoop 1 true true false [none] ["07:42"] (some 1) (some 0) [84, 5, 7] =
      .ok ⟨[none], ["07:42"], some 1, some 0⟩) ∧
    (parseLoop 1 true true false [none] ["07:42"] (some 1) (some 0) [2] =
      .ok ⟨[none], ["07:42"], some 2, some 0⟩) ∧
    (parseLoop 1 true true false [none] ["07:42"] (some 1) (some 0) [2, 0, 7, 5] =
      .ok ⟨[none], ["07:42"], some 2, some 0⟩) :=
  ⟨(C5_underrun 0 true false [none] ["07:42"] (some 1) (some 0)).1,
   (C5_underrun 0 true false [none] ["07:42"] (some 1) (some 0)).2.1 [5, 7] (by decide),
   (C5_underrun 0 true false [none] ["07:42"] (some 1) (some 0)).2.2.1 2 []
     (by decide) (by decide) (by decide),
   (C5_underrun 0 true false [none] ["07:42"] (some 1) (some 0)).2.2.2 2 0 7 [5]
     (by decide) (by decide) (by decide) (by decide) (by decide)⟩

/-- C6 counterexample: two buffers whose single value frame differs only
in the acquisition-mode bit (flags `0x00`, seconds-gate, versus `0x20`,
Hz-gate) produce identical decode results, while the spec's
`AcquisitionMode` codes for the two frames differ — so the decode
result cannot carry any `AcquisitionMode` field extracted from the last
value frame's flag byte. -/
theorem C6_counterexample :
    parse [27, 49, 0, 0, 0, 0, 0, 1] = parse [27, 49, 0, 32, 0, 0, 0, 1] ∧
    specAcquisitionMode 0 ≠ specAcquisitionMode 32 := by
  constructor
  · simp [parse, parseRun, parseLoop, parseStep, initState, intHexlify, applySet,
      (by decide : (32 : Nat) &&& 128 = 0), (by decide : (32 : Nat) &&& 254 = 32),
      (by decide : (32 : Nat) &&& 32 = 32), (by decide : (32 : Nat) &&& 1 = 0)]
  · decide

/-- C6 (amended): the decode result carries exactly two scalar mode
fields (`rate_mode` and `print_mode`); the acquisition-mode bits of a
value frame's flag byte are validated but not stored, so decoding is
invariant under flipping bit5 (seconds-gate flags `0x00` versus Hz-gate
flags `0x20`). -/
theorem C6_acq_not_retained (fuel : Nat) (sk tm : Bool) (b u p1 p2 p3 : Nat)
    (hb : b = 0 ∨ b = 1 ∨ b = 2 ∨ b = 3) (hsk : sk = true ∨ tm = true)
    (vs : List (Option ℚ)) (ts : List String) (pm rm : Option Nat) (rest : List Nat) :
    parseLoop (fuel + 1) true sk tm vs ts pm rm (b :: 0 :: u :: p1 :: p2 :: p3 :: rest) =
      parseLoop (fuel + 1) true sk tm vs ts pm rm
        (b :: 32 :: u :: p1 :: p2 :: p3 :: rest) := by
  cases hn : intHexlify p1 p2 p3 with
  | some n =>
    rw [pl_value_some fuel sk tm b 0 u p1 p2 p3 n hb hsk (by decide) (by decide) hn,
        pl_value_some fuel sk tm b 32 u p1 p2 p3 n hb hsk (by decide) (by decide) hn]
    simp [(by decide : (0 : Nat) &&& 1 = 0), (by decide : (32 : Nat) &&& 1 = 0)]
  | none =>
    rw [pl_value_hexfail fuel sk tm b 0 u p1 p2 p3 hb hsk (by decide) (by decide) hn,
        pl_value_hexfail fuel sk tm b 32 u p1 p2 p3 hb hsk (by decide) (by decide) hn]

/-- C6 witness: bit5 invariance at `mode=3`, payload `0x000005`. -/
theorem C6_witness :
    parseLoop 1 true true false [] [] none none [3, 0, 0, 0, 0, 5] =
      parseLoop 1 true true false [] [] none none [3, 32, 0, 0, 0, 5] :=
  C6_acq_not_retained 0 true false 3 0 0 0 5 (by decide) (by decide) [] [] none none []

/-- C7 counterexample: a buffer consisting of exactly one timestamp
frame decodes to completion with one timestamp and zero measurements,
so a non-empty timestamp sequence does not have one entry per
measurement. -/
theorem C7_counterexample :
    parse [27, 84, 5, 7, 42, 27, 49] = .ok ⟨[], ["07:42"], none, none⟩ ∧
    (["07:42"] : List String) ≠ [] ∧
    (["07:42"] : List String).length ≠ ([] : List (Option ℚ)).length := by
  decide

/-- C7 (amended): the 1:1 index alignment between timestamps and
measurements is not enforced by the decoder in general, but it holds
for every buffer that is a concatenation of well-formed timestamped
blocks (each a timestamp frame immediately followed by one complete
decodable value frame): such a buffer decodes to equal-length
sequences, one entry of each per block. -/
theorem C7_blocks_aligned (bs : List Block) (hv : ∀ blk ∈ bs, validBlock blk) :
    ∃ st, parse (encodeBlocks bs) = .ok st ∧
      st.parsed_timestamps.length = st.parsed_values.length ∧
      st.parsed_values.length = bs.length := by
  obtain ⟨nv, nt, pm2, heq, hl1, hl2⟩ := pl_blocks bs (10 * bs.length) [] [] none none hv
  refine ⟨⟨nv, nt, pm2, none⟩, ?_, by simp [hl1, hl2], by simp [hl1]⟩
  show parseLoop (encodeBlocks bs).length false false false [] [] none none
      (encodeBlocks bs) = _
  rw [encodeBlocks_length, show 13 * bs.length = 3 * bs.length + 10 * bs.length from by ring,
    heq]
  simp

/-- C7 witness: one concrete block (timestamp `07:42`, value frame
`mode=1 flags=0 payload=0x002710`) decodes with aligned sequences. -/
theorem C7_witness :
    ∃ st, parse (encodeBlocks [⟨5, 7, 42, 1, 0, 0, 0, 39, 16⟩]) = .ok st ∧
      st.parsed_timestamps.length = st.parsed_values.length ∧
      st.parsed_values.length = [(⟨5, 7, 42, 1, 0, 0, 0, 39, 16⟩ : Block)].length :=
  C7_blocks_aligned [⟨5, 7, 42, 1, 0, 0, 0, 39, 16⟩] (by decide)

/-- C8 counterexample: `parse` is not stateless across calls — invoking
it a second time on the same parser object (same accumulated state)
appends the decoded measurement again, so the second result differs
from the first. -/
theorem C8_counterexample :
    parse [27, 49, 0, 0, 0, 0, 0, 1] =
      .ok ⟨[some ((1 : ℚ) / 1000)], [], some 0, none⟩ ∧
    parseRun ⟨[some ((1 : ℚ) / 1000)], [], some 0, none⟩ [27, 49, 0, 0, 0, 0, 0, 1] ≠
      .ok ⟨[some ((1 : ℚ) / 1000)], [], some 0, none⟩ := by
  constructor
  · simp [parse, parseRun, parseLoop, parseStep, initState, intHexlify, applySet]
  · have h2 : parseRun ⟨[some ((1 : ℚ) / 1000)], [], some 0, none⟩
        [27, 49, 0, 0, 0, 0, 0, 1] =
        .ok ⟨[some ((1 : ℚ) / 1000), some ((1 : ℚ) / 1000)], [], some 0, none⟩ := by
      simp [parseRun, parseLoop, parseStep, intHexlify, applySet]
    rw [h2]
    simp

/-- C8 (amended): a decode pass is a pure function of the buffer and the
parser's starting state, and a fresh pass reproduces its result; but
`parse` accumulates into the parser's fields, so a second `parse` of
the same buffer on the same parser yields the measurement and timestamp
sequences appended to themselves (duplicated), with the mode fields
unchanged. -/
theorem C8_repeat_parse (bytes : List Nat) (st1 : ParserState)
    (h : parse bytes = .ok st1) :
    parseRun st1 bytes =
      .ok ⟨st1.parsed_values ++ st1.parsed_values,
           st1.parsed_timestamps ++ st1.parsed_timestamps,
           st1.print_mode, st1.rate_mode⟩ := by
  have hd := parseLoop_dress bytes.length false false false st1.parsed_values
    st1.parsed_timestamps st1.print_mode st1.rate_mode bytes
  have h2 : parseLoop bytes.length false false false [] [] none none bytes = .ok st1 := h
  unfold parseRun
  rw [hd, h2]
  simp [Except.map, applySet_self]

/-- C8 witness: re-parsing `ESC '1' 0 0x80 0x55` (one error frame) on the
same parser duplicates the single `None` measurement. -/
theorem C8_witness :
    parseRun ⟨[none], [], some 0, none⟩ [27, 49, 0, 128, 85] =
      .ok ⟨[none, none], [], some 0, none⟩ :=
  C8_repeat_parse [27, 49, 0, 128, 85] ⟨[none], [], some 0, none⟩ (by decide)

/-- C9: a timestamp frame `ESC 'T' h m s 0x1B 0x31` appends exactly one
timestamp, built from the minute and second bytes zero-padded to two
digits and joined by `":"`, discarding the hour byte (the equation's
right-hand side does not mention `h`), and re-arms the value-frame
state; in particular minute 7 / second 42 yields `"07:42"`. -/
theorem C9_timestamp_frame :
    (∀ (fuel : Nat) (sk tm : Bool) (h m s : Nat) (vs : List (Option ℚ))
      (ts : List String) (pm rm : Option Nat) (rest : List Nat),
      parseLoop (fuel + 1) true sk tm vs ts pm rm (84 :: h :: m :: s :: 27 :: 49 :: rest) =
        parseLoop fuel true sk true vs (ts ++ [fmt02 m ++ ":" ++ fmt02 s]) pm rm rest) ∧
    fmt02 7 ++ ":" ++ fmt02 42 = "07:42" :=
  ⟨fun fuel sk tm h m s vs ts pm rm rest => pl_ts fuel sk tm h m s vs ts pm rm rest,
   by decide⟩

/-- C10: for every error-free value frame whose 3 payload bytes contain
any nibble greater than 9, `int(hexlify(...))` raises `ValueError` and
the decode pass fails with that exception instead of appending a
measurement: only binary-coded-decimal payloads produce a value. -/
theorem C10_nonbcd_raises (fuel : Nat) (sk tm : Bool) (b f u p1 p2 p3 : Nat)
    (hb : b = 0 ∨ b = 1 ∨ b = 2 ∨ b = 3) (hsk : sk = true ∨ tm = true)
    (hf : ¬ f &&& 128 = 128)
    (hg : f &&& 254 = 0 ∨ (f &&& 254) &&& 32 = 32)
    (hnib : 9 < p1 / 16 ∨ 9 < p1 % 16 ∨ 9 < p2 / 16 ∨ 9 < p2 % 16 ∨
            9 < p3 / 16 ∨ 9 < p3 % 16)
    (vs : List (Option ℚ)) (ts : List String) (pm rm : Option Nat) (rest : List Nat) :
    parseLoop (fuel + 1) true sk tm vs ts pm rm (b :: f :: u :: p1 :: p2 :: p3 :: rest) =
      .error .valueError :=
  pl_value_hexfail fuel sk tm b f u p1 p2 p3 hb hsk hf hg
    (intHexlify_none_of_nib p1 p2 p3 hnib) vs ts pm rm rest

/-- C10 witness: payload `0x00 0x0A 0x00` (hex digit `a` in position 4)
raises `ValueError`. -/
theorem C10_witness :
    parseLoop 1 true true false [] [] none none [1, 0, 0, 0, 10, 0] =
      .error .valueError :=
  C10_nonbcd_raises 0 true false 1 0 0 0 10 0 (by decide) (by decide) (by decide)
    (by decide) (by decide) [] [] none none []

end SeikoQT2100
